/-
Verification of the remote storage delegation adapter
(`pkg/filemanager/driver/remote/remote.go`).

The Go driver delegates physical storage operations to a slave node through
a Session Client. We embed the driver's operations as pure Lean functions:
the Session Client (an external collaborator) is a record of response
oracles, observable side effects (remote calls issued, progress-callback
invocations, stream closes) are returned explicitly as traces/counters, and
in-place mutation of the upload session descriptor is explicit state
passing. Go errors are `Option Err` (none = nil) or `Except Err`; error
wrapping with `fmt.Errorf("...: %w", err)` is prefix concatenation.
-/

import Mathlib

namespace Remote

/-- Go `error` values, abstracted to their message. `none`/`Except.ok` is a
nil error. -/
abbrev Err := String

/-- Opaque request context (`context.Context`); carried through, never
inspected by the driver. -/
structure Context where
  requestId : Nat
deriving Repr, DecidableEq

/-- `fs.PhysicalObject`: one physical object reported by the slave's list
endpoint. -/
structure PhysicalObject where
  name : String
  source : String
  size : Nat
  isDir : Bool
deriving Repr, DecidableEq

/-- `driver.MediaMeta`: one extracted media metadata entry. -/
structure MediaMeta where
  key : String
  value : String
deriving Repr, DecidableEq

/-- `fs.UploadSession.Props` (the fields this driver reads):
session identifier and expiry. -/
structure UploadSessionProps where
  uploadSessionID : String
  expireAt : Int
deriving Repr, DecidableEq

/-- `fs.UploadSession`: ephemeral record of an in-flight upload. The driver
mutates only `callback`. -/
structure UploadSession where
  callback : String
  callbackSecret : String
  props : UploadSessionProps
deriving Repr, DecidableEq

/-- `fs.UploadCredential`: the bundle returned to the caller by `Token`. -/
structure UploadCredential where
  sessionID : String
  chunkSize : Int
  uploadURLs : List String
  credential : String
deriving Repr, DecidableEq

/-- `ent.Node` (the fields this driver reads): the slave's server base URL
and its shared signing secret (`SlaveKey`). -/
structure Node where
  server : String
  slaveKey : String
deriving Repr, DecidableEq

/-- `ent.StoragePolicy.Settings` (the fields this driver reads). -/
structure PolicySettings where
  chunkSize : Int
  mediaMetaExts : List String
  mediaMetaGeneratorProxy : Bool
  thumbExts : List String
  thumbGeneratorProxy : Bool
  thumbMaxSize : Int
  thumbSupportAllExts : Bool
deriving Repr, DecidableEq

/-- `ent.StoragePolicy` (the fields this driver reads). -/
structure StoragePolicy where
  nodeID : Int
  node : Node
  settings : PolicySettings
deriving Repr, DecidableEq

/-- `conf.SystemMode`: the operating mode of the local process
(`conf.MasterMode` / `conf.SlaveMode`). -/
inductive SystemMode where
  | master
  | slave
deriving Repr, DecidableEq

/-- `conf.ConfigProvider` (the part this driver reads): the system mode. -/
structure Config where
  mode : SystemMode
deriving Repr, DecidableEq

/-- `setting.Provider` (the part this driver reads): the master's public
site URL. -/
structure Settings where
  siteURL : String
deriving Repr, DecidableEq

/-- `driver.GetSourceArgs`: arguments to `Source`. -/
structure GetSourceArgs where
  displayName : String
  isDownload : Bool
  speed : Int
  expire : Option Int
deriving Repr, DecidableEq

/-- `fs.Entity` (the part this driver reads): the physical source path. -/
structure Entity where
  source : String
deriving Repr, DecidableEq

/-- `driver.Capabilities`: the per-policy capability snapshot. -/
structure Capabilities where
  staticFeatures : List Nat
  mediaMetaSupportedExts : List String
  mediaMetaProxy : Bool
  thumbSupportedExts : List String
  thumbProxy : Bool
  thumbMaxSize : Int
  thumbSupportAllExts : Bool
deriving Repr, DecidableEq

/-- Outcome of calling a Go function returning `error`: a normal return
carrying a possibly-nil error, or a panic. -/
inductive GoOutcome where
  | ret (e : Option Err)
  | panicked (e : Err)
deriving Repr, DecidableEq

/-- `fs.UploadRequest` (the part this driver uses): the closable stream is
represented by an identifier; closes are counted by the embedding. -/
structure UploadRequest where
  streamId : Nat
deriving Repr, DecidableEq

/-- One remote call issued through the Session Client, as an observable
event. -/
inductive RemoteCall where
  | list (base : String) (recursive : Bool)
  | upload (streamId : Nat)
  | deleteFiles (files : List String)
  | createUploadSession (sessionID : String) (callback : String) (overwrite : Bool)
  | getUploadURL (expire : Int) (sessionID : String)
  | deleteUploadSession (sessionID : String)
  | mediaMeta (path : String) (ext : String)
deriving Repr, DecidableEq

/-- The Session Client collaborator (`remote.Client`), embedded as a record
of response oracles: each field gives the response the RPC would return for
given arguments. -/
structure SessionClient where
  list : Context → String → Bool → Except Err (List PhysicalObject)
  upload : Context → UploadRequest → GoOutcome
  deleteFiles : Context → List String → List String × Option Err
  createUploadSession : Context → UploadSession → Bool → Option Err
  getUploadURL : Context → Int → String → Except Err (String × String)
  deleteUploadSession : Context → String → Option Err
  mediaMeta : Context → String → String → Except Err (List MediaMeta)

/-- The remote `Driver` (its immutable configuration; the Session Client is
passed alongside). -/
structure Driver where
  policy : StoragePolicy
  config : Config
  settings : Settings
deriving Repr, DecidableEq

/-- `types.PolicyTypeRemote`: the policy-type discriminator for this
backend. -/
def policyTypeRemote : String := "remote"

/-- Modelled from the spec: `routes.MasterSlaveCallbackUrl` (route
construction, an external collaborator) builds the master callback endpoint
URL from the site URL, the policy-type discriminator, the upload session ID
and the callback secret. -/
def MasterSlaveCallbackUrl (siteURL : String) (policyType : String)
    (sessionID : String) (secret : String) : String :=
  siteURL ++ "/api/v4/callback/" ++ policyType ++ "/" ++ sessionID ++ "/" ++ secret

/-- Modelled from the spec: Go's `net/url.Parse` (standard library, outside
this core). The spec only relies on parsing being a deterministic partial
function that can fail; we model failure as the presence of an ASCII
control character in the raw URL, which is the class of input Go's parser
rejects. -/
def urlParse (raw : String) : Except Err String :=
  if raw.toList.any (fun c => c.toNat < 32 ∨ c.toNat = 127) then
    .error "net/url: invalid control character in URL"
  else
    .ok raw

/-- Modelled from the spec: the HMAC computation inside the Signer (the
`auth` package is an external collaborator). A concrete deterministic
keyed digest standing in for HMAC-SHA256. -/
def hmacDigest (secret msg : String) : Nat :=
  (secret ++ "\x00" ++ msg).toList.foldl
    (fun h c => (h * 131 + c.toNat) % 1000000007) 7

/-- Modelled from the spec: `auth.SignURI` — produces an HMAC-based,
expiry-bound signed URL from the node's shared secret. Deterministically
derived from (base URL, shared secret, expiry); fails when the base URL
cannot be parsed or the secret is empty. -/
def SignURI (secret : String) (rawURL : String) (expire : Option Int) :
    Except Err String :=
  match urlParse rawURL with
  | .error e => .error e
  | .ok u =>
      if secret = "" then .error "auth: secret is empty"
      else
        let expireStr := match expire with
          | none => ""
          | some t => toString t
        .ok (u ++ "?expires=" ++ expireStr ++ "&sign=" ++
              toString (hmacDigest secret (u ++ "|" ++ expireStr)))

/-- Modelled from the spec: `routes.SlaveThumbUrl` (route construction,
external collaborator) — the slave's thumbnail endpoint URL for a source
path and target extension. -/
def SlaveThumbUrl (server src ext : String) : String :=
  server ++ "/api/v4/slave/thumb/" ++ src ++ "?ext=" ++ ext

/-- Modelled from the spec: `routes.SlaveFileContentUrl` (route
construction, external collaborator) — the slave's content endpoint URL,
embedding the display name, download-vs-inline flag, speed limit and node
identifier. -/
def SlaveFileContentUrl (server src name : String) (isDownload : Bool)
    (speed : Int) (nodeId : Int) : String :=
  server ++ "/api/v4/slave/content/" ++ src ++ "?name=" ++ name ++
    "&download=" ++ (if isDownload then "true" else "false") ++
    "&speed=" ++ toString speed ++ "&node=" ++ toString nodeId

/-- `Driver.Thumb`: parses the node's server URL (wrapping a parse failure
with "parse server url failed: "), builds the slave thumbnail URL and signs
it with the node's secret. -/
def Driver.Thumb (d : Driver) (ctx : Context) (expire : Option Int)
    (ext : String) (e : Entity) : Except Err String :=
  match urlParse d.policy.node.server with
  | .error err => .error ("parse server url failed: " ++ err)
  | .ok server =>
      match SignURI d.policy.node.slaveKey (SlaveThumbUrl server e.source ext)
          expire with
      | .error err => .error err
      | .ok u => .ok u

/-- The body of `Driver.Source` after the node-id choice: builds the slave
content URL for the given node id and signs it, wrapping a signing failure
with "failed to sign internal slave content URL: ". -/
def Driver.sourceWithNodeId (d : Driver) (e : Entity) (args : GetSourceArgs)
    (nodeId : Int) : Except Err String :=
  match urlParse d.policy.node.server with
  | .error err => .error err
  | .ok server =>
      match SignURI d.policy.node.slaveKey
          (SlaveFileContentUrl server e.source args.displayName args.isDownload
            args.speed nodeId) args.expire with
      | .error err =>
          .error ("failed to sign internal slave content URL: " ++ err)
      | .ok u => .ok u

/-- `Driver.Source`: chooses node id 0, or the policy's own node ID when
the local process runs in slave mode, then builds and signs the slave
content URL. -/
def Driver.Source (d : Driver) (ctx : Context) (e : Entity)
    (args : GetSourceArgs) : Except Err String :=
  Driver.sourceWithNodeId d e args
    (if d.config.mode = SystemMode.slave then d.policy.nodeID else 0)

/-- `features`: the static capability bit-set for this backend (an empty
`boolset.BooleanSet`, process-wide constant). -/
def features : List Nat := []

/-- `Driver.Capabilities`: the per-policy capability snapshot combining the
static feature set with the policy's overrides. -/
def Driver.CapabilitiesOf (d : Driver) : Capabilities :=
  { staticFeatures := features
    mediaMetaSupportedExts := d.policy.settings.mediaMetaExts
    mediaMetaProxy := d.policy.settings.mediaMetaGeneratorProxy
    thumbSupportedExts := d.policy.settings.thumbExts
    thumbProxy := d.policy.settings.thumbGeneratorProxy
    thumbMaxSize := d.policy.settings.thumbMaxSize
    thumbSupportAllExts := d.policy.settings.thumbSupportAllExts }

/-- `Driver.MediaMeta`: delegates to the Session Client verbatim. -/
def Driver.MediaMetaOf (d : Driver) (client : SessionClient) (ctx : Context)
    (path ext : String) : Except Err (List MediaMeta) :=
  client.mediaMeta ctx path ext

/-- `Driver.Open`: always fails with "not implemented"; issues no remote
call (third component: remote calls issued). -/
def Driver.Open (d : Driver) (ctx : Context) (path : String) :
    Option Nat × Option Err × List RemoteCall :=
  (none, some "not implemented", [])

/-- `Driver.LocalPath`: always returns the empty string; issues no remote
call. -/
def Driver.LocalPath (d : Driver) (ctx : Context) (path : String) :
    String × List RemoteCall :=
  ("", [])

/-- `Driver.Put`: `defer file.Close()` then delegate to the Session
Client's `Upload`. The second component counts how many times the stream's
`Close` runs; Go's `defer` runs it on normal return and on panic alike. -/
def Driver.Put (d : Driver) (client : SessionClient) (ctx : Context)
    (file : UploadRequest) : GoOutcome × Nat :=
  match client.upload ctx file with
  | .ret e => (.ret e, 1)
  | .panicked e => (.panicked e, 1)

/-- `Driver.Delete`: delegates to the Session Client's `DeleteFiles`; on a
non-nil error propagates the reported failed list and the error, otherwise
returns an empty failed list and nil. -/
def Driver.Delete (d : Driver) (client : SessionClient) (ctx : Context)
    (files : List String) : List String × Option Err :=
  match client.deleteFiles ctx files with
  | (failed, some e) => (failed, some e)
  | (_, none) => ([], none)

/-- `Driver.CancelToken`: deletes the remote upload session for the
session's ID. The second component records the remote calls issued. -/
def Driver.CancelToken (d : Driver) (client : SessionClient) (ctx : Context)
    (s : UploadSession) : Option Err × List RemoteCall :=
  (client.deleteUploadSession ctx s.props.uploadSessionID,
   [.deleteUploadSession s.props.uploadSessionID])

/-- `Driver.CompleteUpload`: `return nil`. Returns the driver and session
descriptors unchanged and issues no remote call. -/
def Driver.CompleteUpload (d : Driver) (ctx : Context) (s : UploadSession) :
    Option Err × Driver × UploadSession × List RemoteCall :=
  (none, d, s, [])

/-- `Driver.Token`: stamps the session's callback URL, creates the session
remotely (overwrite = false), obtains `(uploadURL, sign)` and returns the
credential. Result components: the credential or error, the session
descriptor after the call (its `callback` mutation is in-place in Go), and
the remote calls issued in order. -/
def Driver.Token (d : Driver) (client : SessionClient) (ctx : Context)
    (s : UploadSession) :
    Except Err UploadCredential × UploadSession × List RemoteCall :=
  let siteURL := d.settings.siteURL
  let s' := { s with callback := MasterSlaveCallbackUrl siteURL policyTypeRemote
                       s.props.uploadSessionID s.callbackSecret }
  match client.createUploadSession ctx s' false with
  | some e =>
      (.error e, s',
       [.createUploadSession s'.props.uploadSessionID s'.callback false])
  | none =>
      match client.getUploadURL ctx s'.props.expireAt s'.props.uploadSessionID with
      | .error e =>
          (.error ("failed to sign upload url: " ++ e), s',
           [.createUploadSession s'.props.uploadSessionID s'.callback false,
            .getUploadURL s'.props.expireAt s'.props.uploadSessionID])
      | .ok (uploadURL, sign) =>
          (.ok { sessionID := s'.props.uploadSessionID
                 chunkSize := d.policy.settings.chunkSize
                 uploadURLs := [uploadURL]
                 credential := sign }, s',
           [.createUploadSession s'.props.uploadSessionID s'.callback false,
            .getUploadURL s'.props.expireAt s'.props.uploadSessionID])

/-- `Driver.List`: delegates to the Session Client; on success invokes the
progress callback with the final count and returns the objects. The second
component records the arguments of every progress-callback invocation, in
order. (Declared after the other operations so that the name `List` keeps
its standard meaning in their signatures.) -/
def Driver.List (d : Driver) (client : SessionClient) (ctx : Context)
    (base : String) (recursive : Bool) :
    Except Err (List PhysicalObject) × List Nat :=
  match client.list ctx base recursive with
  | .error e => (.error e, [])
  | .ok res => (.ok res, [res.length])

/-! ### Concrete fixtures used to instantiate the theorems -/

/-- A Session Client whose oracles return fixed responses. -/
def mkClient (listR : Except Err (List PhysicalObject)) (uploadR : GoOutcome)
    (deleteR : List String × Option Err) (createR : Option Err)
    (getR : Except Err (String × String)) (delSessR : Option Err)
    (metaR : Except Err (List MediaMeta)) : SessionClient where
  list := fun _ _ _ => listR
  upload := fun _ _ => uploadR
  deleteFiles := fun _ _ => deleteR
  createUploadSession := fun _ _ _ => createR
  getUploadURL := fun _ _ _ => getR
  deleteUploadSession := fun _ _ => delSessR
  mediaMeta := fun _ _ _ => metaR

def testCtx : Context := { requestId := 1 }

def testPolicy : StoragePolicy where
  nodeID := 42
  node := { server := "https://slave.example.com", slaveKey := "slavekey" }
  settings :=
    { chunkSize := 26214400
      mediaMetaExts := ["mp4"]
      mediaMetaGeneratorProxy := true
      thumbExts := ["jpg", "png"]
      thumbGeneratorProxy := true
      thumbMaxSize := 10000000
      thumbSupportAllExts := false }

def testDriver (m : SystemMode) : Driver where
  policy := testPolicy
  config := { mode := m }
  settings := { siteURL := "https://master.example.com" }

def testSession : UploadSession where
  callback := ""
  callbackSecret := "cbsecret"
  props := { uploadSessionID := "sess-1", expireAt := 1700000000 }

def testEntity : Entity := { source := "dir/file.bin" }

def testArgs : GetSourceArgs where
  displayName := "file.bin"
  isDownload := true
  speed := 0
  expire := some 1700000000

/-- A client on whose responses the happy paths succeed, with a partial
delete failure. -/
def clientA : SessionClient :=
  mkClient (.ok []) (.ret none) (["b"], some "io error") none
    (.ok ("https://upload.example.com/sess-1", "sig")) none (.ok [])

/-- A client on whose responses every RPC fails. -/
def clientB : SessionClient :=
  mkClient (.error "down") (.ret (some "upload failed")) ([], none)
    (some "create failed") (.error "sign refused") (some "gone")
    (.error "meta down")

/-! ## Theorems -/

/-- Helper: on every path, the session descriptor after `Token` is the
input session with its callback stamped with the master callback URL. -/
theorem token_returned_session (d : Driver) (client : SessionClient)
    (ctx : Context) (s : UploadSession) :
    (Driver.Token d client ctx s).2.1 =
      { s with callback := MasterSlaveCallbackUrl d.settings.siteURL
                 policyTypeRemote s.props.uploadSessionID s.callbackSecret } := by
  unfold Driver.Token
  cases hc : client.createUploadSession ctx
      { s with callback := MasterSlaveCallbackUrl d.settings.siteURL
                 policyTypeRemote s.props.uploadSessionID s.callbackSecret } false with
  | some e => simp [hc]
  | none =>
      cases hg : client.getUploadURL ctx s.props.expireAt s.props.uploadSessionID with
      | error e => simp [hc, hg]
      | ok p => cases p with | mk u sg => simp [hc, hg]

/-- C1: `Delete` with one or more paths propagates the Session Client's
failed-path list and error exactly when the error is non-nil, and returns
an empty failed list and nil error whenever the client's error is nil,
regardless of the failed list the client reported alongside. -/
theorem delete_contract (d : Driver) (client : SessionClient) (ctx : Context)
    (files failed : List String) (hne : files ≠ []) :
    (∀ e, client.deleteFiles ctx files = (failed, some e) →
        Driver.Delete d client ctx files = (failed, some e)) ∧
    (client.deleteFiles ctx files = (failed, none) →
        Driver.Delete d client ctx files = ([], none)) := by
  refine ⟨fun e h => ?_, fun h => ?_⟩ <;> simp [Driver.Delete, h]

/-- C1 witness: on the fixture client, deleting `["a","b"]` with a reported
failure `(["b"], "io error")` propagates both. -/
theorem delete_contract_witness :
    Driver.Delete (testDriver SystemMode.master) clientA testCtx ["a", "b"] =
      (["b"], some "io error") :=
  (delete_contract (testDriver SystemMode.master) clientA testCtx
    ["a", "b"] ["b"] (by decide)).1 "io error" rfl

/-- C4: `Put` closes the request's stream exactly once on every exit path —
normal return with nil error, normal return with an error, and panic — and
returns exactly the outcome of the Session Client's `Upload`. -/
theorem put_closes_once_and_propagates (d : Driver) (client : SessionClient)
    (ctx : Context) (file : UploadRequest) :
    (Driver.Put d client ctx file).2 = 1 ∧
    (Driver.Put d client ctx file).1 = client.upload ctx file := by
  cases h : client.upload ctx file <;> simp [Driver.Put, h]

/-- C5: when the Session Client's list succeeds, `List` invokes the
progress callback exactly once with the final object count (0 when empty)
and returns the objects with nil error; when it fails, `List` returns nil
and that error and never invokes the callback. -/
theorem list_contract (d : Driver) (client : SessionClient) (ctx : Context)
    (base : String) (recursive : Bool) :
    (∀ res, client.list ctx base recursive = .ok res →
        Driver.List d client ctx base recursive = (.ok res, [res.length])) ∧
    (∀ e, client.list ctx base recursive = .error e →
        Driver.List d client ctx base recursive = (.error e, [])) := by
  refine ⟨fun res h => ?_, fun e h => ?_⟩ <;> simp [Driver.List, h]

/-- C5 witness: on the fixture client returning zero objects, the callback
is invoked exactly once with 0. -/
theorem list_contract_witness :
    Driver.List (testDriver SystemMode.master) clientA testCtx "base" true =
      (.ok [], [0]) :=
  (list_contract (testDriver SystemMode.master) clientA testCtx "base" true).1
    [] rfl

/-- C7: for every context and path, `Open` returns a nil file and a non-nil
error, `LocalPath` returns the empty string, and neither issues any remote
call. -/
theorem open_localpath_never_succeed (d : Driver) (ctx : Context)
    (path : String) :
    Driver.Open d ctx path = (none, some "not implemented", []) ∧
    Driver.LocalPath d ctx path = ("", []) :=
  ⟨rfl, rfl⟩

/-- C8: `CompleteUpload` always returns nil, issues no remote call, and
leaves the driver and session descriptors unchanged. -/
theorem completeUpload_noop (d : Driver) (ctx : Context) (s : UploadSession) :
    Driver.CompleteUpload d ctx s = (none, d, s, []) :=
  rfl

/-- Helper: on every path, the first remote call `Token` issues is a
session-creation call already carrying the stamped callback URL. -/
theorem token_trace_head (d : Driver) (client : SessionClient)
    (ctx : Context) (s : UploadSession) :
    (Driver.Token d client ctx s).2.2.head? =
      some (.createUploadSession s.props.uploadSessionID
        (MasterSlaveCallbackUrl d.settings.siteURL policyTypeRemote
          s.props.uploadSessionID s.callbackSecret) false) := by
  unfold Driver.Token
  cases hc : client.createUploadSession ctx
      { s with callback := MasterSlaveCallbackUrl d.settings.siteURL
                 policyTypeRemote s.props.uploadSessionID s.callbackSecret } false with
  | some e => simp [hc]
  | none =>
      cases hg : client.getUploadURL ctx s.props.expireAt s.props.uploadSessionID with
      | error e => simp [hc, hg]
      | ok p => cases p with | mk u sg => simp [hc, hg]

/-- C2: `Token` stamps the session's callback with the master callback URL
built from the site URL, the remote policy-type discriminator, the session
ID and the callback secret, then creates the session remotely (propagating
that error verbatim), then obtains `(uploadURL, sign)` (wrapping that
error); on success it returns the credential with the session's ID, the
policy's chunk size, exactly `[uploadURL]`, and `sign`. -/
theorem token_contract (d : Driver) (client : SessionClient) (ctx : Context)
    (s : UploadSession) :
    (∀ e, client.createUploadSession ctx
          { s with callback := MasterSlaveCallbackUrl d.settings.siteURL
                     policyTypeRemote s.props.uploadSessionID s.callbackSecret }
          false = some e →
        Driver.Token d client ctx s =
          (.error e,
           { s with callback := MasterSlaveCallbackUrl d.settings.siteURL
                      policyTypeRemote s.props.uploadSessionID s.callbackSecret },
           [.createUploadSession s.props.uploadSessionID
              (MasterSlaveCallbackUrl d.settings.siteURL policyTypeRemote
                s.props.uploadSessionID s.callbackSecret) false])) ∧
    (client.createUploadSession ctx
          { s with callback := MasterSlaveCallbackUrl d.settings.siteURL
                     policyTypeRemote s.props.uploadSessionID s.callbackSecret }
          false = none →
      (∀ e, client.getUploadURL ctx s.props.expireAt s.props.uploadSessionID =
            .error e →
          (Driver.Token d client ctx s).1 =
            .error ("failed to sign upload url: " ++ e)) ∧
      (∀ u sg, client.getUploadURL ctx s.props.expireAt s.props.uploadSessionID =
            .ok (u, sg) →
          Driver.Token d client ctx s =
            (.ok { sessionID := s.props.uploadSessionID
                   chunkSize := d.policy.settings.chunkSize
                   uploadURLs := [u]
                   credential := sg },
             { s with callback := MasterSlaveCallbackUrl d.settings.siteURL
                        policyTypeRemote s.props.uploadSessionID s.callbackSecret },
             [.createUploadSession s.props.uploadSessionID
                (MasterSlaveCallbackUrl d.settings.siteURL policyTypeRemote
                  s.props.uploadSessionID s.callbackSecret) false,
              .getUploadURL s.props.expireAt s.props.uploadSessionID]))) := by
  refine ⟨fun e h => ?_, fun h => ⟨fun e hg => ?_, fun u sg hg => ?_⟩⟩ <;>
    simp [Driver.Token, *]

/-- C2 witness: on the fixture client, `Token` succeeds and returns the
fixture session's ID, the policy chunk size, the single upload URL and the
signature reported by the client. -/
theorem token_contract_witness :
    Driver.Token (testDriver SystemMode.master) clientA testCtx testSession =
      (.ok { sessionID := "sess-1"
             chunkSize := 26214400
             uploadURLs := ["https://upload.example.com/sess-1"]
             credential := "sig" },
       { testSession with callback := (MasterSlaveCallbackUrl
           "https://master.example.com" policyTypeRemote "sess-1" "cbsecret") },
       [.createUploadSession "sess-1"
          (MasterSlaveCallbackUrl "https://master.example.com" policyTypeRemote
            "sess-1" "cbsecret") false,
        .getUploadURL 1700000000 "sess-1"]) :=
  ((token_contract (testDriver SystemMode.master) clientA testCtx
      testSession).2 rfl).2 "https://upload.example.com/sess-1" "sig" rfl

/-- C3: `Source` gives the signing step a content URL embedding the
policy's own node ID when the process runs in slave mode and node ID 0
otherwise, and (for either node id) fails exactly when the node's server
URL cannot be parsed or signing fails, the signing error being wrapped with
context. -/
theorem source_contract (d : Driver) (ctx : Context) (e : Entity)
    (args : GetSourceArgs) :
    (d.config.mode = SystemMode.slave →
        Driver.Source d ctx e args =
          Driver.sourceWithNodeId d e args d.policy.nodeID) ∧
    (d.config.mode ≠ SystemMode.slave →
        Driver.Source d ctx e args = Driver.sourceWithNodeId d e args 0) ∧
    (∀ nodeId : Int,
      ((∃ err, Driver.sourceWithNodeId d e args nodeId = .error err) ↔
        ((∃ err, urlParse d.policy.node.server = .error err) ∨
         (∃ server err2, urlParse d.policy.node.server = .ok server ∧
            SignURI d.policy.node.slaveKey
              (SlaveFileContentUrl server e.source args.displayName
                args.isDownload args.speed nodeId) args.expire = .error err2))) ∧
      (∀ server err2, urlParse d.policy.node.server = .ok server →
          SignURI d.policy.node.slaveKey
            (SlaveFileContentUrl server e.source args.displayName
              args.isDownload args.speed nodeId) args.expire = .error err2 →
          Driver.sourceWithNodeId d e args nodeId =
            .error ("failed to sign internal slave content URL: " ++ err2))) := by
  refine ⟨fun h => ?_, fun h => ?_, fun nodeId => ⟨?_, fun server err2 hp hs => ?_⟩⟩
  · simp [Driver.Source, h]
  · simp [Driver.Source, h]
  · cases hp : urlParse d.policy.node.server with
    | error err => simp [Driver.sourceWithNodeId, hp]
    | ok server =>
        cases hs : SignURI d.policy.node.slaveKey
            (SlaveFileContentUrl server e.source args.displayName
              args.isDownload args.speed nodeId) args.expire with
        | error err2 => simp [Driver.sourceWithNodeId, hp, hs]
        | ok u => simp [Driver.sourceWithNodeId, hp, hs]
  · simp [Driver.sourceWithNodeId, hp, hs]

/-- C3 witness: with the fixture policy (node ID 42), the slave-mode branch
uses node ID 42 and the master-mode branch uses node ID 0. -/
theorem source_contract_witness :
    Driver.Source (testDriver SystemMode.slave) testCtx testEntity testArgs =
      Driver.sourceWithNodeId (testDriver SystemMode.slave) testEntity
        testArgs 42 ∧
    Driver.Source (testDriver SystemMode.master) testCtx testEntity testArgs =
      Driver.sourceWithNodeId (testDriver SystemMode.master) testEntity
        testArgs 0 :=
  ⟨(source_contract (testDriver SystemMode.slave) testCtx testEntity
      testArgs).1 rfl,
   (source_contract (testDriver SystemMode.master) testCtx testEntity
      testArgs).2.1 (by decide)⟩

/-- C6: `CancelToken` issues exactly one remote `DeleteUploadSession` call
carrying precisely the session's upload session ID, returns that call's
error, and after `Token` the cancelled session ID is exactly the one
`Token` created the session under. -/
theorem cancelToken_contract (d : Driver) (client : SessionClient)
    (ctx : Context) (s : UploadSession) :
    Driver.CancelToken d client ctx s =
      (client.deleteUploadSession ctx s.props.uploadSessionID,
       [.deleteUploadSession s.props.uploadSessionID]) ∧
    ∀ (client2 : SessionClient) (ctx2 : Context),
      (Driver.CancelToken d client2 ctx2 (Driver.Token d client ctx s).2.1).2 =
        [.deleteUploadSession s.props.uploadSessionID] := by
  refine ⟨rfl, fun client2 ctx2 => ?_⟩
  rw [token_returned_session]
  rfl

/-- C9: signing is deterministic and pure — two signings of equal (secret,
URL, expiry) triples are identical, and `Thumb` and `Source` are
deterministic functions of their inputs (independent of the per-call
context). -/
theorem signing_deterministic (secret1 secret2 url1 url2 : String)
    (exp1 exp2 : Option Int) (hs : secret1 = secret2) (hu : url1 = url2)
    (he : exp1 = exp2) :
    SignURI secret1 url1 exp1 = SignURI secret2 url2 exp2 ∧
    ∀ (d : Driver) (ctx1 ctx2 : Context) (expire : Option Int) (ext : String)
      (ent : Entity) (args : GetSourceArgs),
      Driver.Thumb d ctx1 expire ext ent = Driver.Thumb d ctx2 expire ext ent ∧
      Driver.Source d ctx1 ent args = Driver.Source d ctx2 ent args := by
  subst hs hu he
  exact ⟨rfl, fun d ctx1 ctx2 expire ext ent args => ⟨rfl, rfl⟩⟩

/-- C9 witness: two signings of a concrete triple coincide. -/
theorem signing_deterministic_witness :
    SignURI "slavekey" "https://slave.example.com/f" (some 1700000000) =
      SignURI "slavekey" "https://slave.example.com/f" (some 1700000000) :=
  (signing_deterministic "slavekey" "slavekey" "https://slave.example.com/f"
    "https://slave.example.com/f" (some 1700000000) (some 1700000000)
    rfl rfl rfl).1

/-- C10: whenever `Token` returns an error, the session descriptor's
callback has nevertheless already been set to the master callback URL, and
the first (hence every) remote call already carried that stamped callback —
`Token` is not atomic on the session descriptor on failure. -/
theorem token_not_atomic_on_failure (d : Driver) (client : SessionClient)
    (ctx : Context) (s : UploadSession) (e : Err)
    (h : (Driver.Token d client ctx s).1 = .error e) :
    (Driver.Token d client ctx s).2.1.callback =
      MasterSlaveCallbackUrl d.settings.siteURL policyTypeRemote
        s.props.uploadSessionID s.callbackSecret ∧
    (Driver.Token d client ctx s).2.2.head? =
      some (.createUploadSession s.props.uploadSessionID
        (MasterSlaveCallbackUrl d.settings.siteURL policyTypeRemote
          s.props.uploadSessionID s.callbackSecret) false) := by
  refine ⟨?_, token_trace_head d client ctx s⟩
  rw [token_returned_session]

/-- C10 witness: on the all-failing fixture client, `Token` fails with the
creation error yet the returned session's callback is already stamped. -/
theorem token_not_atomic_on_failure_witness :
    (Driver.Token (testDriver SystemMode.master) clientB testCtx
        testSession).2.1.callback =
      MasterSlaveCallbackUrl "https://master.example.com" policyTypeRemote
        "sess-1" "cbsecret" ∧
    (Driver.Token (testDriver SystemMode.master) clientB testCtx
        testSession).2.2.head? =
      some (.createUploadSession "sess-1"
        (MasterSlaveCallbackUrl "https://master.example.com" policyTypeRemote
          "sess-1" "cbsecret") false) :=
  token_not_atomic_on_failure (testDriver SystemMode.master) clientB testCtx
    testSession "create failed" rfl

end Remote
